import Mathlib

/-! # Verification of the benchx metrics and fairness components

A shallow embedding of `src/benchx/metrics.py` (`MetricsCollector`) and
`src/benchx/fairness.py` (`FairnessChecker`, `ConfigMismatch`), together with
theorems settling the specification claims about them.

Modelling conventions:
* Python floats are modelled as rationals (`ℚ`); Python ints as `Int`/`Nat`.
* Python dicts are modelled as insertion-ordered association lists
  (`List (String × α)`); `dictSet` is dict assignment (update in place if the
  key exists, else append), `dictGet?` is `dict.get(key)` (returns `none` when
  the key is absent).
-/

namespace Benchx

/-- `d.get(k)`: first value stored under key `k`, if any.  (Keys are unique in
every dict the embedded code builds, since `dictSet` never duplicates a key.) -/
def dictGet? {α : Type} : List (String × α) → String → Option α
  | [], _ => none
  | (k', v) :: rest, k => if k' = k then some v else dictGet? rest k

/-- Python dict assignment `d[k] = v`: overwrite in place when `k` is present,
append otherwise. -/
def dictSet {α : Type} (d : List (String × α)) (k : String) (v : α) :
    List (String × α) :=
  if d.any (fun p => p.1 = k) then
    d.map (fun p => if p.1 = k then (k, v) else p)
  else
    d ++ [(k, v)]

/-- Python `d.update(e)`: assign every binding of `e` into `d` in order. -/
def dictUpdate {α : Type} (d e : List (String × α)) : List (String × α) :=
  e.foldl (fun acc kv => dictSet acc kv.1 kv.2) d

/-! ## Fairness checker (src/benchx/fairness.py) -/

/-- `ConfigMismatch` dataclass (fairness.py lines 7-22).  `value1`/`value2`
come from `dict.get`, so they are `Option α` (`none` models Python `None`). -/
structure ConfigMismatch (α : Type) where
  parameter : String
  engine1 : String
  value1 : Option α
  engine2 : String
  value2 : Option α
  severity : String
deriving DecidableEq, Repr

/-- `FairnessChecker.CRITICAL_PARAMS` (fairness.py lines 28-32). -/
def CRITICAL_PARAMS : List String :=
  ["tensor_parallel_size", "max_tokens", "dtype"]

/-- `FairnessChecker.WARNING_PARAMS` (fairness.py lines 34-37). -/
def WARNING_PARAMS : List String :=
  ["gpu_memory_utilization", "batch_size"]

/-- `FairnessChecker.PARAM_MAPPINGS` (fairness.py lines 40-52). -/
def PARAM_MAPPINGS : List (String × List (String × String)) :=
  [("vllm", [("tensor_parallel_size", "tensor_parallel_size"),
             ("tp", "tensor_parallel_size")]),
   ("sglang", [("tp_size", "tensor_parallel_size"),
               ("tensor_parallel", "tensor_parallel_size")]),
   ("tensorrt", [("world_size", "tensor_parallel_size")])]

variable {α : Type} [DecidableEq α]

/-- `FairnessChecker._normalize_config` (fairness.py lines 79-88). -/
def normalize_config (engine : String) (config : List (String × α)) :
    List (String × α) :=
  let mappings := (dictGet? PARAM_MAPPINGS engine).getD []
  config.foldl
    (fun acc kv => dictSet acc ((dictGet? mappings kv.1).getD kv.1) kv.2) []

/-- `FairnessChecker._compare_configs` (fairness.py lines 90-128): one
mismatch per critical parameter whose values differ, then one per differing
warning parameter. -/
def compareConfigs (engine1 : String) (config1 : List (String × α))
    (engine2 : String) (config2 : List (String × α)) :
    List (ConfigMismatch α) :=
  (CRITICAL_PARAMS.filterMap (fun param =>
    if dictGet? config1 param ≠ dictGet? config2 param then
      some { parameter := param, engine1 := engine1,
             value1 := dictGet? config1 param, engine2 := engine2,
             value2 := dictGet? config2 param, severity := "critical" }
    else none)) ++
  (WARNING_PARAMS.filterMap (fun param =>
    if dictGet? config1 param ≠ dictGet? config2 param then
      some { parameter := param, engine1 := engine1,
             value1 := dictGet? config1 param, engine2 := engine2,
             value2 := dictGet? config2 param, severity := "warning" }
    else none))

/-- The pair loop of `FairnessChecker.check_configs` (fairness.py lines
67-75): `for i, e1 in enumerate(engines): for e2 in engines[i+1:]: ...`. -/
def pairsCompare : List (String × List (String × α)) → List (ConfigMismatch α)
  | [] => []
  | (e1, c1) :: rest =>
      (rest.map (fun ec => compareConfigs e1 c1 ec.1 ec.2)).flatten ++
        pairsCompare rest

/-- `FairnessChecker.check_configs` (fairness.py lines 54-77): normalize every
engine's config, then compare all unordered pairs in iteration order. -/
def check_configs (configs : List (String × List (String × α))) :
    List (ConfigMismatch α) :=
  pairsCompare (configs.map (fun ec => (ec.1, normalize_config ec.1 ec.2)))

/-- `FairnessChecker._get_engine_param_name` (fairness.py lines 159-166):
reverse lookup of the first engine-specific spelling of `standard_param`. -/
def getEngineParamName (engine standard_param : String) : String :=
  let mappings := (dictGet? PARAM_MAPPINGS engine).getD []
  match mappings.find? (fun p => p.2 = standard_param) with
  | some p => p.1
  | none => standard_param

/-- One step of the critical-parameter loop in
`FairnessChecker.auto_fix_configs` (fairness.py lines 149-153):
`if param in reference_config: fixed[engine_param] = reference_config[param]`. -/
def applyRefParam (reference_config : List (String × α)) (engine : String)
    (fixed : List (String × α)) (param : String) : List (String × α) :=
  match dictGet? reference_config param with
  | some v => dictSet fixed (getEngineParamName engine param) v
  | none => fixed

/-- `FairnessChecker.auto_fix_configs` (fairness.py lines 130-157).  The
reference config is the raw (unnormalized) config of the first engine. -/
def auto_fix_configs (configs : List (String × List (String × α))) :
    List (String × List (String × α)) :=
  if check_configs configs = [] then configs
  else
    match configs with
    | [] => []
    | (re, rc) :: rest =>
        ((re, rc) :: rest).map
          (fun ec => (ec.1, CRITICAL_PARAMS.foldl (applyRefParam rc ec.1) ec.2))

/-! ## Metrics collector (src/benchx/metrics.py)

The wall-clock `timestamp` fields stored by `record`/`record_iteration` and
the optional `token_timestamps` list are omitted: no aggregate reads them. -/

/-- One entry of `self.raw_data`: the `data_point` dict built by
`MetricsCollector.record` (metrics.py lines 28-34). -/
structure DataPoint where
  concurrency : Int
  total_time : ℚ
  tokens_generated : ℚ
  ttft : ℚ
deriving DecidableEq, Repr

/-- One entry of `self.ttft_data` (metrics.py lines 44-47). -/
structure TtftPoint where
  ttft : ℚ
  concurrency : Int
deriving DecidableEq, Repr

/-- One entry of `self.iteration_data` (metrics.py lines 51-56). -/
structure IterationRecord where
  concurrency : Int
  elapsed : ℚ
  requests : Int
deriving DecidableEq, Repr

/-- The mutable state of a `MetricsCollector` (metrics.py lines 11-17). -/
structure MetricsCollector where
  metric_names : List String
  raw_data : List DataPoint
  iteration_data : List IterationRecord
  ttft_data : List TtftPoint
  request_count : Nat
  error_count : Nat
deriving DecidableEq, Repr

/-- `MetricsCollector.__init__` (metrics.py lines 11-17). -/
def init (metric_names : List String) : MetricsCollector :=
  { metric_names := metric_names, raw_data := [], iteration_data := [],
    ttft_data := [], request_count := 0, error_count := 0 }

/-- The `result` dict passed to `record`.  `error` is the truthiness of
`result.get("error")`; the numeric fields are `none` when the key is absent
(`result.get(key, 0)` then yields `0`). -/
structure GenResult where
  error : Bool
  total_time : Option ℚ
  tokens_generated : Option ℚ
  ttft : Option ℚ
deriving DecidableEq, Repr

/-- `MetricsCollector.record` (metrics.py lines 19-47). -/
def record (m : MetricsCollector) (result : GenResult) (concurrency : Int) :
    MetricsCollector :=
  let m1 := { m with request_count := m.request_count + 1 }
  if result.error then { m1 with error_count := m1.error_count + 1 }
  else
    let dp : DataPoint :=
      { concurrency := concurrency,
        total_time := result.total_time.getD 0,
        tokens_generated := result.tokens_generated.getD 0,
        ttft := result.ttft.getD 0 }
    let m2 := { m1 with raw_data := m1.raw_data ++ [dp] }
    if 0 < result.ttft.getD 0 then
      { m2 with ttft_data := m2.ttft_data ++
          [{ ttft := result.ttft.getD 0, concurrency := concurrency }] }
    else m2

/-- `MetricsCollector.record_iteration` (metrics.py lines 49-56).  Python's
`requests or concurrency` falls back to `concurrency` exactly when the
`requests` argument is `0` (the default). -/
def record_iteration (m : MetricsCollector) (concurrency : Int) (elapsed : ℚ)
    (requests : Int := 0) : MetricsCollector :=
  { m with iteration_data := m.iteration_data ++
      [{ concurrency := concurrency, elapsed := elapsed,
         requests := if requests ≠ 0 then requests else concurrency }] }

/-- `statistics.mean` on the exact rationals: sum divided by length. -/
def mean (l : List ℚ) : ℚ := l.sum / l.length

/-- `statistics.median`: middle element of the sorted list, or the average of
the two middle elements when the length is even. -/
def median (l : List ℚ) : ℚ :=
  if (l.insertionSort (· ≤ ·)).length % 2 = 1 then
    (l.insertionSort (· ≤ ·)).getD ((l.insertionSort (· ≤ ·)).length / 2) 0
  else
    ((l.insertionSort (· ≤ ·)).getD ((l.insertionSort (· ≤ ·)).length / 2 - 1) 0 +
      (l.insertionSort (· ≤ ·)).getD ((l.insertionSort (· ≤ ·)).length / 2) 0) / 2

/-- Python `min(l)` over a nonempty list (`0` as an unused default). -/
def listMin : List ℚ → ℚ
  | [] => 0
  | x :: xs => xs.foldl min x

/-- Python `max(l)` over a nonempty list (`0` as an unused default). -/
def listMax : List ℚ → ℚ
  | [] => 0
  | x :: xs => xs.foldl max x

/-- `MetricsCollector._percentile` (metrics.py lines 152-161), nearest-rank.
`index` is Python's `max(0, int(len(sorted) * p / 100) - 1)`: truncating float
division of the nonnegative product is `Nat` division, and `Nat` subtraction
supplies the `max 0`. -/
def percentile (data : List ℚ) (p : Nat) : ℚ :=
  if data = [] then 0
  else if p = 100 then (data.insertionSort (· ≤ ·)).getLastD 0
  else
    (data.insertionSort (· ≤ ·)).getD
      (min ((data.insertionSort (· ≤ ·)).length * p / 100 - 1)
        ((data.insertionSort (· ≤ ·)).length - 1)) 0

/-- `MetricsCollector._empty_metrics` (metrics.py lines 143-150). -/
def empty_metrics (m : MetricsCollector) : List (String × ℚ) :=
  [("total_requests", (m.request_count : ℚ)),
   ("successful_requests", 0),
   ("failed_requests", (m.error_count : ℚ)),
   ("success_rate", 0)]

/-- The four count entries opening `aggregate` (metrics.py lines 63-68). -/
def countsBlock (m : MetricsCollector) : List (String × ℚ) :=
  [("total_requests", (m.request_count : ℚ)),
   ("successful_requests", (m.raw_data.length : ℚ)),
   ("failed_requests", (m.error_count : ℚ)),
   ("success_rate",
     if 0 < m.request_count then
       (m.raw_data.length : ℚ) / (m.request_count : ℚ)
     else 0)]

/-- `ttft_values` (metrics.py line 72): the positive recorded TTFTs. -/
def ttftValues (m : MetricsCollector) : List ℚ :=
  (m.ttft_data.map (fun d => d.ttft)).filter (fun x => decide (0 < x))

/-- The TTFT entries of `aggregate` (metrics.py lines 70-80). -/
def ttftBlock (m : MetricsCollector) : List (String × ℚ) :=
  if "ttft" ∈ m.metric_names ∧ m.ttft_data ≠ [] then
    if ttftValues m ≠ [] then
      [("ttft_mean", mean (ttftValues m)),
       ("ttft_median", median (ttftValues m)),
       ("ttft_p50", percentile (ttftValues m) 50),
       ("ttft_p95", percentile (ttftValues m) 95),
       ("ttft_p99", percentile (ttftValues m) 99),
       ("ttft_min", listMin (ttftValues m)),
       ("ttft_max", listMax (ttftValues m))]
    else []
  else []

/-- The `tpots` list built by `aggregate` (metrics.py lines 84-91). -/
def tpotList (m : MetricsCollector) : List ℚ :=
  m.raw_data.filterMap (fun d =>
    if 0 < d.tokens_generated ∧ 0 < d.total_time then
      if 0 < d.total_time - d.ttft then
        some ((d.total_time - d.ttft) / d.tokens_generated)
      else none
    else none)

/-- The TPOT entries of `aggregate` (metrics.py lines 82-98). -/
def tpotBlock (m : MetricsCollector) : List (String × ℚ) :=
  if "tpot" ∈ m.metric_names then
    if tpotList m ≠ [] then
      [("tpot_mean", mean (tpotList m)),
       ("tpot_median", median (tpotList m)),
       ("tpot_p50", percentile (tpotList m) 50),
       ("tpot_p95", percentile (tpotList m) 95),
       ("tpot_p99", percentile (tpotList m) 99)]
    else []
  else []

/-- The `concurrency_throughput` dict (metrics.py lines 109-121), built over
the distinct concurrencies of `raw_data` (`set(...)` modelled as `dedup`;
claims never depend on the iteration order of this set). -/
def concThroughput (m : MetricsCollector) : List (String × ℚ) :=
  ((m.raw_data.map (fun d => d.concurrency)).dedup).foldl
    (fun acc c =>
      let conc_data := m.raw_data.filter (fun d => decide (d.concurrency = c))
      let conc_iterations :=
        m.iteration_data.filter (fun d => decide (d.concurrency = c))
      if conc_iterations ≠ [] then
        let conc_tokens := (conc_data.map (fun d => d.tokens_generated)).sum
        let conc_time := (conc_iterations.map (fun d => d.elapsed)).sum
        if 0 < conc_time then
          dictSet acc ("throughput_c" ++ toString c) (conc_tokens / conc_time)
        else acc
      else acc) []

/-- The throughput section of `aggregate` (metrics.py lines 100-121): the two
global entries (only when total elapsed is positive), then
`metrics.update(concurrency_throughput)`. -/
def throughputUpdate (m : MetricsCollector) (metrics : List (String × ℚ)) :
    List (String × ℚ) :=
  if "throughput" ∈ m.metric_names then
    dictUpdate
      (if 0 < (m.iteration_data.map (fun d => d.elapsed)).sum then
        metrics ++
          [("throughput_tokens_per_sec",
             (m.raw_data.map (fun d => d.tokens_generated)).sum /
               (m.iteration_data.map (fun d => d.elapsed)).sum),
           ("throughput_requests_per_sec",
             (m.raw_data.length : ℚ) /
               (m.iteration_data.map (fun d => d.elapsed)).sum)]
      else metrics)
      (concThroughput m)
  else metrics

/-- `latencies` (metrics.py line 125). -/
def latencies (m : MetricsCollector) : List ℚ :=
  m.raw_data.map (fun d => d.total_time)

/-- The latency entries of `aggregate` (metrics.py lines 123-133). -/
def latencyBlock (m : MetricsCollector) : List (String × ℚ) :=
  if "p99_latency" ∈ m.metric_names ∨ "latency" ∈ m.metric_names then
    if latencies m ≠ [] then
      [("latency_mean", mean (latencies m)),
       ("latency_median", median (latencies m)),
       ("latency_p50", percentile (latencies m) 50),
       ("latency_p95", percentile (latencies m) 95),
       ("latency_p99", percentile (latencies m) 99),
       ("latency_min", listMin (latencies m)),
       ("latency_max", listMax (latencies m))]
    else []
  else []

/-- `tokens_list` (metrics.py line 136). -/
def tokensList (m : MetricsCollector) : List ℚ :=
  (m.raw_data.map (fun d => d.tokens_generated)).filter (fun x => decide (0 < x))

/-- The token-stat entries of `aggregate` (metrics.py lines 135-139); note the
source gates them only on `tokens_list` being nonempty, not on
`metric_names`. -/
def tokensBlock (m : MetricsCollector) : List (String × ℚ) :=
  if tokensList m ≠ [] then
    [("tokens_mean", mean (tokensList m)),
     ("tokens_total", (tokensList m).sum)]
  else []

/-- `MetricsCollector.aggregate` (metrics.py lines 58-141).  Every
string-literal key assigned by the source is distinct from every other key it
assigns, so the dict assignments are list appends; the only dynamically keyed
writes (`throughput_c{N}`) go through `dictUpdate`/`dictSet`, mirroring the
source's `metrics.update(concurrency_throughput)`. -/
def aggregate (m : MetricsCollector) : List (String × ℚ) :=
  if m.raw_data = [] then empty_metrics m
  else
    throughputUpdate m (countsBlock m ++ ttftBlock m ++ tpotBlock m) ++
      latencyBlock m ++ tokensBlock m

/-- The three-outcome example store of the spec's end-to-end test. -/
def exampleStore : MetricsCollector :=
  record_iteration
    (record
      (record
        (record (init ["ttft", "throughput"])
          { error := false, total_time := some 1,
            tokens_generated := some 100, ttft := some (1 / 10) } 10)
        { error := false, total_time := some 2,
          tokens_generated := some 200, ttft := some (1 / 5) } 10)
      { error := true, total_time := none, tokens_generated := none,
        ttft := none } 10)
    10 2 3

/-! ## Association-list (dict) lemmas -/

lemma dictGet?_append_left {β : Type} {a : List (String × β)} (b : List (String × β))
    {k : String} (h : dictGet? a k = none) :
    dictGet? (a ++ b) k = dictGet? b k := by
  induction a with
  | nil => rfl
  | cons p t ih =>
    obtain ⟨k', v⟩ := p
    rw [List.cons_append]
    by_cases hk : k' = k
    · simp [dictGet?, hk] at h
    · simp only [dictGet?, if_neg hk] at h ⊢
      exact ih h

lemma dictGet?_append_some {β : Type} {a : List (String × β)} (b : List (String × β))
    {k : String} {v : β} (h : dictGet? a k = some v) :
    dictGet? (a ++ b) k = some v := by
  induction a with
  | nil => simp [dictGet?] at h
  | cons p t ih =>
    obtain ⟨k', w⟩ := p
    rw [List.cons_append]
    by_cases hk : k' = k
    · simp only [dictGet?, if_pos hk] at h ⊢
      exact h
    · simp only [dictGet?, if_neg hk] at h ⊢
      exact ih h

lemma dictGet?_append_right_none {β : Type} {a b : List (String × β)} {k : String}
    (h : dictGet? b k = none) :
    dictGet? (a ++ b) k = dictGet? a k := by
  cases ha : dictGet? a k with
  | none => rw [dictGet?_append_left b ha, h]
  | some v => rw [dictGet?_append_some b ha]

lemma dictGet?_eq_none_of_keys_ne {β : Type} {d : List (String × β)} {k : String}
    (h : ∀ kv ∈ d, kv.1 ≠ k) : dictGet? d k = none := by
  induction d with
  | nil => rfl
  | cons p t ih =>
    obtain ⟨k', v⟩ := p
    have hk : k' ≠ k := h (k', v) (List.mem_cons_self _ _)
    simp only [dictGet?, if_neg hk]
    exact ih (fun kv hm => h kv (List.mem_cons_of_mem _ hm))

lemma dictGet?_of_not_any {β : Type} {d : List (String × β)} {k : String}
    (h : ¬(d.any (fun p => p.1 = k) = true)) : dictGet? d k = none := by
  refine dictGet?_eq_none_of_keys_ne (fun kv hm he => h ?_)
  exact List.any_eq_true.mpr ⟨kv, hm, by simp [he]⟩

lemma dictGet?_map_set_self {β : Type} {t : List (String × β)} {k : String}
    {v : β} (h : t.any (fun p => p.1 = k) = true) :
    dictGet? (t.map (fun p => if p.1 = k then (k, v) else p)) k = some v := by
  induction t with
  | nil => simp at h
  | cons p t ih =>
    obtain ⟨k', w⟩ := p
    rw [List.map_cons]
    by_cases hk : k' = k
    · have h1 : (if (k', w).1 = k then (k, v) else (k', w)) = (k, v) := by
        simp [hk]
      rw [h1]
      simp [dictGet?]
    · simp only [List.any_cons, Bool.or_eq_true, decide_eq_true_eq] at h
      have ht := h.resolve_left hk
      have h1 : (if (k', w).1 = k then (k, v) else (k', w)) = (k', w) := by
        simp [hk]
      rw [h1]
      simp only [dictGet?, if_neg hk]
      exact ih ht

lemma dictGet?_map_set_ne {β : Type} (t : List (String × β)) (k : String)
    (v : β) {k' : String} (h : k ≠ k') :
    dictGet? (t.map (fun p => if p.1 = k then (k, v) else p)) k' =
      dictGet? t k' := by
  induction t with
  | nil => rfl
  | cons p t ih =>
    obtain ⟨k1, w⟩ := p
    rw [List.map_cons]
    by_cases hk1 : k1 = k
    · have h1 : (if (k1, w).1 = k then (k, v) else (k1, w)) = (k, v) := by
        simp [hk1]
      rw [h1]
      simp only [dictGet?, if_neg h,
        if_neg (fun he => h (hk1.symm.trans he))]
      exact ih
    · have h1 : (if (k1, w).1 = k then (k, v) else (k1, w)) = (k1, w) := by
        simp [hk1]
      rw [h1]
      by_cases hk1' : k1 = k'
      · simp only [dictGet?, if_pos hk1']
      · simp only [dictGet?, if_neg hk1']
        exact ih

lemma dictGet?_dictSet_self {β : Type} (d : List (String × β)) (k : String)
    (v : β) : dictGet? (dictSet d k v) k = some v := by
  unfold dictSet
  by_cases h : d.any (fun p => p.1 = k)
  · rw [if_pos h]
    exact dictGet?_map_set_self h
  · rw [if_neg h, dictGet?_append_left _ (dictGet?_of_not_any h)]
    simp [dictGet?]

lemma dictGet?_dictSet_ne {β : Type} (d : List (String × β)) (k : String)
    (v : β) {k' : String} (h : k ≠ k') :
    dictGet? (dictSet d k v) k' = dictGet? d k' := by
  unfold dictSet
  by_cases hany : d.any (fun p => p.1 = k)
  · rw [if_pos hany]
    exact dictGet?_map_set_ne d k v h
  · rw [if_neg hany]
    apply dictGet?_append_right_none
    simp [dictGet?, h]

lemma mem_dictSet {β : Type} {d : List (String × β)} {k : String} {v : β}
    {kv : String × β} (h : kv ∈ dictSet d k v) : kv.1 = k ∨ kv ∈ d := by
  unfold dictSet at h
  by_cases hany : d.any (fun p => p.1 = k)
  · rw [if_pos hany] at h
    obtain ⟨q, hq, hfq⟩ := List.mem_map.mp h
    by_cases hk : q.1 = k
    · rw [if_pos hk] at hfq
      left; rw [← hfq]
    · rw [if_neg hk] at hfq
      right; rw [← hfq]; exact hq
  · rw [if_neg hany] at h
    rcases List.mem_append.mp h with h | h
    · right; exact h
    · left; rw [List.mem_singleton.mp h]

lemma dictGet?_dictUpdate_not_mem {β : Type} (d e : List (String × β))
    (k : String) : (∀ kv ∈ e, kv.1 ≠ k) →
    dictGet? (dictUpdate d e) k = dictGet? d k := by
  induction e generalizing d with
  | nil => intro _; rfl
  | cons p t ih =>
    intro h
    show dictGet? (dictUpdate (dictSet d p.1 p.2) t) k = dictGet? d k
    rw [ih (dictSet d p.1 p.2) (fun kv hm => h kv (List.mem_cons_of_mem _ hm))]
    exact dictGet?_dictSet_ne d p.1 p.2 (h p (List.mem_cons_self _ _))

/-! ## Shape of the dynamically generated `throughput_c{N}` keys -/

/-- A string starting with the 12-character prefix `"throughput_c"` is not
equal to any string whose 12th character (index 11) is not `'c'`. -/
lemma tc_append_ne (s K : String) (h : K.data[11]? ≠ some 'c') :
    "throughput_c" ++ s ≠ K := by
  intro he
  apply h
  rw [← he, String.data_append "throughput_c" s,
    List.getElem?_append_left (by decide : 11 < "throughput_c".data.length)]
  decide

/-- Every key of `concThroughput m` has the form `"throughput_c" ++ s`. -/
lemma concThroughput_keys (m : MetricsCollector) :
    ∀ kv ∈ concThroughput m, ∃ s, kv.1 = "throughput_c" ++ s := by
  unfold concThroughput
  generalize (m.raw_data.map (fun d => d.concurrency)).dedup = cs
  have base : ∀ kv ∈ ([] : List (String × ℚ)), ∃ s, kv.1 = "throughput_c" ++ s := by
    simp
  revert base
  generalize ([] : List (String × ℚ)) = acc
  induction cs generalizing acc with
  | nil => intro base kv hm; exact base kv hm
  | cons c t ih =>
    intro base kv hm
    rw [List.foldl_cons] at hm
    refine ih _ ?_ kv hm
    intro kv' hm'
    dsimp only at hm'
    split_ifs at hm' with h1 h2
    · rcases mem_dictSet hm' with h | h
      · exact ⟨toString c, h⟩
      · exact base kv' h
    · exact base kv' hm'
    · exact base kv' hm'

lemma dictGet?_concThroughput_ne (m : MetricsCollector) {k : String}
    (h : k.data[11]? ≠ some 'c') :
    ∀ kv ∈ concThroughput m, kv.1 ≠ k := by
  intro kv hm
  obtain ⟨s, hs⟩ := concThroughput_keys m kv hm
  rw [hs]
  exact tc_append_ne s k h

/-! ## Keys of the literal-key blocks of `aggregate` -/

lemma dictGet?_none_of_keys_subset {β : Type} {d : List (String × β)}
    {ks : List String} {k : String} (hd : ∀ kv ∈ d, kv.1 ∈ ks)
    (hk : k ∉ ks) : dictGet? d k = none :=
  dictGet?_eq_none_of_keys_ne (fun kv hm he => hk (he ▸ hd kv hm))

lemma countsBlock_keys (m : MetricsCollector) :
    ∀ kv ∈ countsBlock m, kv.1 ∈
      (["total_requests", "successful_requests", "failed_requests",
        "success_rate"] : List String) := by
  intro kv h
  simp only [countsBlock, List.mem_cons, List.not_mem_nil, or_false] at h
  rcases h with h | h | h | h <;> subst h <;> simp

lemma ttftBlock_keys (m : MetricsCollector) :
    ∀ kv ∈ ttftBlock m, kv.1 ∈
      (["ttft_mean", "ttft_median", "ttft_p50", "ttft_p95", "ttft_p99",
        "ttft_min", "ttft_max"] : List String) := by
  intro kv h
  unfold ttftBlock at h
  split_ifs at h
  · simp only [List.mem_cons, List.not_mem_nil, or_false] at h
    rcases h with h | h | h | h | h | h | h <;> subst h <;> simp
  · simp at h
  · simp at h

lemma tpotBlock_keys (m : MetricsCollector) :
    ∀ kv ∈ tpotBlock m, kv.1 ∈
      (["tpot_mean", "tpot_median", "tpot_p50", "tpot_p95",
        "tpot_p99"] : List String) := by
  intro kv h
  unfold tpotBlock at h
  split_ifs at h
  · simp only [List.mem_cons, List.not_mem_nil, or_false] at h
    rcases h with h | h | h | h | h <;> subst h <;> simp
  · simp at h
  · simp at h

lemma latencyBlock_keys (m : MetricsCollector) :
    ∀ kv ∈ latencyBlock m, kv.1 ∈
      (["latency_mean", "latency_median", "latency_p50", "latency_p95",
        "latency_p99", "latency_min", "latency_max"] : List String) := by
  intro kv h
  unfold latencyBlock at h
  split_ifs at h
  · simp only [List.mem_cons, List.not_mem_nil, or_false] at h
    rcases h with h | h | h | h | h | h | h <;> subst h <;> simp
  · simp at h
  · simp at h

lemma tokensBlock_keys (m : MetricsCollector) :
    ∀ kv ∈ tokensBlock m, kv.1 ∈
      (["tokens_mean", "tokens_total"] : List String) := by
  intro kv h
  unfold tokensBlock at h
  split_ifs at h
  · simp only [List.mem_cons, List.not_mem_nil, or_false] at h
    rcases h with h | h <;> subst h <;> simp
  · simp at h

/-! ## Sorted-list facts used for the percentile estimator -/

lemma getLastD_mem : ∀ (l : List ℚ) (d : ℚ), l ≠ [] → l.getLastD d ∈ l := by
  intro l
  induction l with
  | nil => intro d h; exact absurd rfl h
  | cons a t ih =>
    intro d _
    rw [List.getLastD_cons]
    cases t with
    | nil => simp
    | cons b t' =>
      exact List.mem_cons_of_mem a (ih a (List.cons_ne_nil b t'))

lemma le_getLastD_of_sorted : ∀ (l : List ℚ) (d : ℚ),
    l.Sorted (· ≤ ·) → ∀ x ∈ l, x ≤ l.getLastD d := by
  intro l
  induction l with
  | nil => simp
  | cons a t ih =>
    intro d hs x hx
    rw [List.getLastD_cons]
    rcases List.mem_cons.mp hx with hxa | hxt
    · subst hxa
      cases t with
      | nil => simp
      | cons b t' =>
        have hab : x ≤ b := (List.sorted_cons.mp hs).1 b (List.mem_cons_self b t')
        exact le_trans hab (ih x hs.of_cons b (List.mem_cons_self b t'))
    · exact ih a hs.of_cons x hxt

/-! ## Spellings produced by the reverse parameter-name lookup -/

lemma param_mappings_lookup (e : String) :
    (dictGet? PARAM_MAPPINGS e).getD [] =
        [("tensor_parallel_size", "tensor_parallel_size"),
         ("tp", "tensor_parallel_size")] ∨
      (dictGet? PARAM_MAPPINGS e).getD [] =
        [("tp_size", "tensor_parallel_size"),
         ("tensor_parallel", "tensor_parallel_size")] ∨
      (dictGet? PARAM_MAPPINGS e).getD [] =
        [("world_size", "tensor_parallel_size")] ∨
      (dictGet? PARAM_MAPPINGS e).getD [] = [] := by
  by_cases h1 : "vllm" = e
  · subst h1; left; rfl
  by_cases h2 : "sglang" = e
  · subst h2; right; left; rfl
  by_cases h3 : "tensorrt" = e
  · subst h3; right; right; left; rfl
  right; right; right
  simp [PARAM_MAPPINGS, dictGet?, h1, h2, h3]

lemma gepn_max_tokens (e : String) :
    getEngineParamName e "max_tokens" = "max_tokens" := by
  unfold getEngineParamName
  rcases param_mappings_lookup e with h | h | h | h <;> rw [h] <;> decide

lemma gepn_dtype (e : String) : getEngineParamName e "dtype" = "dtype" := by
  unfold getEngineParamName
  rcases param_mappings_lookup e with h | h | h | h <;> rw [h] <;> decide

lemma gepn_tps (e : String) :
    getEngineParamName e "tensor_parallel_size" ∈
      (["tensor_parallel_size", "tp_size", "world_size"] : List String) := by
  unfold getEngineParamName
  rcases param_mappings_lookup e with h | h | h | h <;> rw [h] <;> decide

/-- For one engine, the three critical parameters always translate to three
pairwise distinct engine-specific spellings. -/
lemma gepn_critical_distinct (e : String) {p q : String}
    (hp : p ∈ CRITICAL_PARAMS) (hq : q ∈ CRITICAL_PARAMS) (hpq : p ≠ q) :
    getEngineParamName e p ≠ getEngineParamName e q := by
  have htps := gepn_tps e
  have hmt := gepn_max_tokens e
  have hdt := gepn_dtype e
  fin_cases hp <;> fin_cases hq <;>
    simp_all <;>
    (try exact fun he => by revert htps; rw [he]; decide) <;>
    (try exact fun he => by revert htps; rw [← he]; decide)

/-- No critical parameter's engine spelling is a warning parameter. -/
lemma gepn_critical_not_warning (e : String) {p : String}
    (hp : p ∈ CRITICAL_PARAMS) {w : String} (hw : w ∈ WARNING_PARAMS) :
    getEngineParamName e p ≠ w := by
  have htps := gepn_tps e
  have hmt := gepn_max_tokens e
  have hdt := gepn_dtype e
  fin_cases hp <;> fin_cases hw <;> simp_all <;>
    (exact fun he => by revert htps; rw [he]; decide)

/-! ## The critical-parameter loop of `auto_fix_configs` -/

lemma applyRefParam_preserve (rc : List (String × α)) (e : String)
    (fixed : List (String × α)) (q : String) {tgt : String}
    (h : getEngineParamName e q ≠ tgt) :
    dictGet? (applyRefParam rc e fixed q) tgt = dictGet? fixed tgt := by
  unfold applyRefParam
  cases hrc : dictGet? rc q with
  | none => rfl
  | some v => exact dictGet?_dictSet_ne _ _ _ h

lemma applyRefParam_write (rc : List (String × α)) (e : String)
    (fixed : List (String × α)) {q : String} {v : α}
    (hv : dictGet? rc q = some v) :
    dictGet? (applyRefParam rc e fixed q) (getEngineParamName e q) = some v := by
  unfold applyRefParam
  rw [hv]
  exact dictGet?_dictSet_self _ _ _

lemma critical_foldl_write (rc : List (String × α)) (e : String)
    (c : List (String × α)) {param : String} (hp : param ∈ CRITICAL_PARAMS)
    {v : α} (hv : dictGet? rc param = some v) :
    dictGet? (CRITICAL_PARAMS.foldl (applyRefParam rc e) c)
      (getEngineParamName e param) = some v := by
  have step : CRITICAL_PARAMS.foldl (applyRefParam rc e) c =
      applyRefParam rc e
        (applyRefParam rc e
          (applyRefParam rc e c "tensor_parallel_size") "max_tokens")
        "dtype" := rfl
  rw [step]
  fin_cases hp
  · rw [applyRefParam_preserve rc e _ "dtype"
        (gepn_critical_distinct e (by decide) (by decide) (by decide)),
      applyRefParam_preserve rc e _ "max_tokens"
        (gepn_critical_distinct e (by decide) (by decide) (by decide))]
    exact applyRefParam_write rc e _ hv
  · rw [applyRefParam_preserve rc e _ "dtype"
        (gepn_critical_distinct e (by decide) (by decide) (by decide))]
    exact applyRefParam_write rc e _ hv
  · exact applyRefParam_write rc e _ hv

lemma critical_foldl_preserve (rc : List (String × α)) (e : String)
    (c : List (String × α)) (k : String)
    (hk : ∀ p ∈ CRITICAL_PARAMS, getEngineParamName e p ≠ k) :
    dictGet? (CRITICAL_PARAMS.foldl (applyRefParam rc e) c) k =
      dictGet? c k := by
  have step : CRITICAL_PARAMS.foldl (applyRefParam rc e) c =
      applyRefParam rc e
        (applyRefParam rc e
          (applyRefParam rc e c "tensor_parallel_size") "max_tokens")
        "dtype" := rfl
  rw [step, applyRefParam_preserve rc e _ "dtype" (hk "dtype" (by decide)),
    applyRefParam_preserve rc e _ "max_tokens" (hk "max_tokens" (by decide)),
    applyRefParam_preserve rc e _ "tensor_parallel_size"
      (hk "tensor_parallel_size" (by decide))]

lemma getD_map_of_lt {β γ : Type} [Inhabited β] [Inhabited γ] (f : β → γ)
    (l : List β) (i : Nat) (h : i < l.length) :
    (l.map f).getD i default = f (l.getD i default) := by
  simp [List.getD_eq_getElem?_getD, List.getElem?_map,
    List.getElem?_eq_getElem h]

/-! ## Lookup lemmas for `aggregate` -/

lemma dictGet?_throughputUpdate_other (m : MetricsCollector)
    (metrics : List (String × ℚ)) (k : String)
    (h1 : k ≠ "throughput_tokens_per_sec")
    (h2 : k ≠ "throughput_requests_per_sec")
    (h3 : k.data[11]? ≠ some 'c') :
    dictGet? (throughputUpdate m metrics) k = dictGet? metrics k := by
  unfold throughputUpdate
  split_ifs with hm ht
  · rw [dictGet?_dictUpdate_not_mem _ _ _ (dictGet?_concThroughput_ne m h3)]
    apply dictGet?_append_right_none
    refine dictGet?_eq_none_of_keys_ne ?_
    intro kv hkv
    simp only [List.mem_cons, List.not_mem_nil, or_false] at hkv
    rcases hkv with h | h <;> subst h
    · exact fun he => h1 he.symm
    · exact fun he => h2 he.symm
  · rw [dictGet?_dictUpdate_not_mem _ _ _ (dictGet?_concThroughput_ne m h3)]
  · rfl

lemma throughputUpdate_not_requested (m : MetricsCollector)
    (metrics : List (String × ℚ)) (h : "throughput" ∉ m.metric_names) :
    throughputUpdate m metrics = metrics := by
  unfold throughputUpdate
  rw [if_neg h]

lemma ttftBlock_not_requested (m : MetricsCollector)
    (h : "ttft" ∉ m.metric_names) : ttftBlock m = [] := by
  unfold ttftBlock
  rw [if_neg (fun hc => h hc.1)]

lemma tpotBlock_not_requested (m : MetricsCollector)
    (h : "tpot" ∉ m.metric_names) : tpotBlock m = [] := by
  unfold tpotBlock
  rw [if_neg h]

lemma latencyBlock_not_requested (m : MetricsCollector)
    (h1 : "p99_latency" ∉ m.metric_names) (h2 : "latency" ∉ m.metric_names) :
    latencyBlock m = [] := by
  unfold latencyBlock
  rw [if_neg (fun hc => hc.elim h1 h2)]

lemma dictGet?_prefix_none (m : MetricsCollector) (k : String)
    (hc : dictGet? (countsBlock m) k = none)
    (ht : dictGet? (ttftBlock m) k = none)
    (hp : dictGet? (tpotBlock m) k = none) :
    dictGet? (countsBlock m ++ ttftBlock m ++ tpotBlock m) k = none := by
  have hct : dictGet? (countsBlock m ++ ttftBlock m) k = none := by
    rw [dictGet?_append_left _ hc]
    exact ht
  rw [dictGet?_append_left _ hct]
  exact hp

lemma dictGet?_prefix_to_tpot (m : MetricsCollector) (k : String)
    (hc : dictGet? (countsBlock m) k = none)
    (ht : dictGet? (ttftBlock m) k = none) :
    dictGet? (countsBlock m ++ ttftBlock m ++ tpotBlock m) k =
      dictGet? (tpotBlock m) k := by
  have hct : dictGet? (countsBlock m ++ ttftBlock m) k = none := by
    rw [dictGet?_append_left _ hc]
    exact ht
  rw [dictGet?_append_left _ hct]

/-- Reduce a lookup in `aggregate` to a lookup in the counts/TTFT/TPOT prefix,
for keys untouched by the throughput, latency and token sections. -/
lemma dictGet?_aggregate_reduce (m : MetricsCollector)
    (hraw : m.raw_data ≠ []) (k : String)
    (h1 : k ≠ "throughput_tokens_per_sec")
    (h2 : k ≠ "throughput_requests_per_sec")
    (h3 : k.data[11]? ≠ some 'c')
    (hlat : dictGet? (latencyBlock m) k = none)
    (htok : dictGet? (tokensBlock m) k = none) :
    dictGet? (aggregate m) k =
      dictGet? (countsBlock m ++ ttftBlock m ++ tpotBlock m) k := by
  unfold aggregate
  rw [if_neg hraw, dictGet?_append_right_none htok,
    dictGet?_append_right_none hlat,
    dictGet?_throughputUpdate_other m _ k h1 h2 h3]

/-! ## Claim theorems -/

/-- **C2**: `check` on the two-engine map
`{vllm: {tensor_parallel_size: 4}, sglang: {tp_size: 2}}` returns exactly one
`ConfigMismatch`, with parameter `tensor_parallel_size`, severity `critical`,
value1 `4` and value2 `2`; and on any two-engine map the check is exactly
"normalize each config, then compare the single unordered pair". -/
theorem C2 :
    (check_configs [("vllm", [("tensor_parallel_size", (4 : Int))]),
                    ("sglang", [("tp_size", 2)])] =
      [{ parameter := "tensor_parallel_size", engine1 := "vllm",
         value1 := some 4, engine2 := "sglang", value2 := some 2,
         severity := "critical" }]) ∧
    ∀ (e1 e2 : String) (c1 c2 : List (String × α)),
      check_configs [(e1, c1), (e2, c2)] =
        compareConfigs e1 (normalize_config e1 c1)
          e2 (normalize_config e2 c2) := by
  constructor
  · decide
  · intro e1 e2 c1 c2
    simp [check_configs, pairsCompare]

/-- **C4**: `auto_fix` returns its input unchanged when `check` reports no
mismatches; otherwise, with the first engine as reference, every critical
parameter present in the reference's raw config is written into every
engine's config under that engine's own spelling (reverse lookup); in
particular fixing `{vllm: {tensor_parallel_size: 4}, sglang: {tp_size: 2}}`
yields an sglang config containing `tp_size: 4`. -/
theorem C4 (configs : List (String × List (String × α))) :
    (check_configs configs = [] → auto_fix_configs configs = configs) ∧
    (∀ re rc rest, configs = (re, rc) :: rest →
      check_configs configs ≠ [] →
      ∀ i, i < configs.length →
      ∀ param, param ∈ CRITICAL_PARAMS →
      ∀ v, dictGet? rc param = some v →
      ((auto_fix_configs configs).getD i default).1 =
          (configs.getD i default).1 ∧
        dictGet? ((auto_fix_configs configs).getD i default).2
            (getEngineParamName ((configs.getD i default).1) param) =
          some v) ∧
    dictGet?
        (auto_fix_configs [("vllm", [("tensor_parallel_size", (4 : Int))]),
                           ("sglang", [("tp_size", 2)])]) "sglang" =
      some [("tp_size", 4)] := by
  refine ⟨?_, ?_, by decide⟩
  · intro h
    unfold auto_fix_configs
    rw [if_pos h]
  · intro re rc rest hcfg hne i hi param hp v hv
    subst hcfg
    have hfix : auto_fix_configs ((re, rc) :: rest) =
        ((re, rc) :: rest).map
          (fun ec =>
            (ec.1, CRITICAL_PARAMS.foldl (applyRefParam rc ec.1) ec.2)) := by
      unfold auto_fix_configs
      rw [if_neg hne]
    rw [hfix, getD_map_of_lt _ _ _ hi]
    exact ⟨rfl, critical_foldl_write rc _ _ hp hv⟩

theorem C4_witness :
    dictGet?
        ((auto_fix_configs [("vllm", [("tensor_parallel_size", (4 : Int))]),
                            ("sglang", [("tp_size", 2)])]).getD 1 default).2
        (getEngineParamName
          (([("vllm", [("tensor_parallel_size", (4 : Int))]),
             ("sglang", [("tp_size", 2)])].getD 1 default).1)
          "tensor_parallel_size") =
      some 4 :=
  ((C4 [("vllm", [("tensor_parallel_size", (4 : Int))]),
        ("sglang", [("tp_size", 2)])]).2.1
    "vllm" [("tensor_parallel_size", (4 : Int))]
    [("sglang", [("tp_size", 2)])] rfl (by decide) 1 (by decide)
    "tensor_parallel_size" (by decide) 4 (by decide)).2

/-- **C8**: `auto_fix` never changes warning-level parameters: for every
engine entry, every key that is not that engine's spelling of some critical
parameter — in particular `gpu_memory_utilization` and `batch_size` — is
bound to the same value in the output config as in the input config (and the
engine names are unchanged). -/
theorem C8 (configs : List (String × List (String × α))) (i : Nat)
    (hi : i < configs.length) :
    ((auto_fix_configs configs).getD i default).1 =
        (configs.getD i default).1 ∧
    (∀ k : String,
      (∀ p ∈ CRITICAL_PARAMS,
        getEngineParamName ((configs.getD i default).1) p ≠ k) →
      dictGet? ((auto_fix_configs configs).getD i default).2 k =
        dictGet? ((configs.getD i default).2) k) ∧
    (∀ w ∈ WARNING_PARAMS,
      dictGet? ((auto_fix_configs configs).getD i default).2 w =
        dictGet? ((configs.getD i default).2) w) := by
  by_cases hchk : check_configs configs = []
  · unfold auto_fix_configs
    rw [if_pos hchk]
    exact ⟨rfl, fun k _ => rfl, fun w _ => rfl⟩
  · cases configs with
    | nil => simp at hi
    | cons ec rest =>
      obtain ⟨re, rc⟩ := ec
      have hfix : auto_fix_configs ((re, rc) :: rest) =
          ((re, rc) :: rest).map
            (fun ec =>
              (ec.1, CRITICAL_PARAMS.foldl (applyRefParam rc ec.1) ec.2)) := by
        unfold auto_fix_configs
        rw [if_neg hchk]
      rw [hfix, getD_map_of_lt _ _ _ hi]
      refine ⟨rfl, ?_, ?_⟩
      · intro k hk
        exact critical_foldl_preserve rc _ _ k hk
      · intro w hw
        exact critical_foldl_preserve rc _ _ w
          (fun p hp => gepn_critical_not_warning _ hp hw)

theorem C8_witness :
    dictGet?
        ((auto_fix_configs
            [("vllm", [("tensor_parallel_size", (4 : Int)), ("batch_size", 8)]),
             ("sglang", [("tp_size", 2), ("batch_size", 16)])]).getD
          1 default).2 "batch_size" =
      dictGet?
        (([("vllm", [("tensor_parallel_size", (4 : Int)), ("batch_size", 8)]),
           ("sglang", [("tp_size", 2), ("batch_size", 16)])].getD
          1 default).2) "batch_size" :=
  (C8 [("vllm", [("tensor_parallel_size", (4 : Int)), ("batch_size", 8)]),
       ("sglang", [("tp_size", 2), ("batch_size", 16)])] 1
    (by decide)).2.2 "batch_size" (by decide)

/-- **C1**: for every non-empty list `S` and percentile `P ≤ 100`, the
nearest-rank estimator sorts `S` ascending; at `P = 100` it returns the
maximum of `S` (a member that bounds every element); otherwise it returns
`sorted[min(max(0, floor(n*P/100) - 1), n - 1)]` (`Nat` subtraction supplies
the `max 0`); and in every case the result is a member of `S` — never an
interpolated value. -/
theorem C1 (S : List ℚ) (hS : S ≠ []) (P : Nat) (hP : P ≤ 100) :
    (percentile S 100 ∈ S ∧ ∀ x ∈ S, x ≤ percentile S 100) ∧
    (P ≠ 100 →
      percentile S P =
        (S.insertionSort (· ≤ ·)).getD
          (min (S.length * P / 100 - 1) (S.length - 1)) 0) ∧
    percentile S P ∈ S := by
  have hperm := List.perm_insertionSort (· ≤ ·) S
  have hlen : (S.insertionSort (· ≤ ·)).length = S.length := hperm.length_eq
  have hsne : S.insertionSort (· ≤ ·) ≠ [] := by
    intro h
    apply hS
    rw [← List.length_eq_zero, ← hlen, h, List.length_nil]
  have hsorted : (S.insertionSort (· ≤ ·)).Sorted (· ≤ ·) :=
    List.sorted_insertionSort _ S
  have h100 : percentile S 100 = (S.insertionSort (· ≤ ·)).getLastD 0 := by
    unfold percentile
    rw [if_neg hS, if_pos rfl]
  have hmem100 : percentile S 100 ∈ S := by
    rw [h100]
    exact hperm.mem_iff.mp (getLastD_mem _ 0 hsne)
  have hub : ∀ x ∈ S, x ≤ percentile S 100 := by
    intro x hx
    rw [h100]
    exact le_getLastD_of_sorted _ 0 hsorted x (hperm.mem_iff.mpr hx)
  have hformula : P ≠ 100 →
      percentile S P =
        (S.insertionSort (· ≤ ·)).getD
          (min (S.length * P / 100 - 1) (S.length - 1)) 0 := by
    intro hP100
    unfold percentile
    rw [if_neg hS, if_neg hP100, hlen]
  refine ⟨⟨hmem100, hub⟩, hformula, ?_⟩
  by_cases hP100 : P = 100
  · subst hP100
    exact hmem100
  · rw [hformula hP100]
    have hpos : 0 < S.length := List.length_pos.mpr hS
    have hi : min (S.length * P / 100 - 1) (S.length - 1) <
        (S.insertionSort (· ≤ ·)).length := by
      rw [hlen]
      exact lt_of_le_of_lt (min_le_right _ _) (Nat.sub_lt hpos Nat.one_pos)
    rw [List.getD_eq_getElem?_getD, List.getElem?_eq_getElem hi,
      Option.getD_some]
    exact hperm.mem_iff.mp (List.getElem_mem hi)

theorem C1_witness :
    ([(2 : ℚ), 1] : List ℚ) ≠ [] ∧ (50 : Nat) ≤ 100 ∧
      percentile [(2 : ℚ), 1] 50 ∈ ([(2 : ℚ), 1] : List ℚ) :=
  ⟨by simp, by norm_num, (C1 [(2 : ℚ), 1] (by simp) 50 (by norm_num)).2.2⟩

/-- **C5**: with zero successful outcomes recorded (`raw_data` empty),
`aggregate` returns exactly the four count entries — running request counter,
zero successes, the error counter, success rate `0.0` — and no derived metric
keys. -/
theorem C5 (m : MetricsCollector) (h : m.raw_data = []) :
    aggregate m =
      [("total_requests", (m.request_count : ℚ)),
       ("successful_requests", 0),
       ("failed_requests", (m.error_count : ℚ)),
       ("success_rate", 0)] := by
  unfold aggregate
  rw [if_pos h]
  rfl

/-- **C6**: with throughput requested and at least one successful outcome, the
two global throughput keys are absent when the total elapsed over all
iteration records is zero, and otherwise hold total tokens (resp. successful
request count) divided by total elapsed. -/
theorem C6 (m : MetricsCollector) (h1 : "throughput" ∈ m.metric_names)
    (h2 : m.raw_data ≠ []) :
    ((m.iteration_data.map (fun d => d.elapsed)).sum = 0 →
      dictGet? (aggregate m) "throughput_tokens_per_sec" = none ∧
      dictGet? (aggregate m) "throughput_requests_per_sec" = none) ∧
    (0 < (m.iteration_data.map (fun d => d.elapsed)).sum →
      dictGet? (aggregate m) "throughput_tokens_per_sec" =
        some ((m.raw_data.map (fun d => d.tokens_generated)).sum /
          (m.iteration_data.map (fun d => d.elapsed)).sum) ∧
      dictGet? (aggregate m) "throughput_requests_per_sec" =
        some ((m.raw_data.length : ℚ) /
          (m.iteration_data.map (fun d => d.elapsed)).sum)) := by
  have hB : ∀ k : String,
      k ∈ (["throughput_tokens_per_sec",
            "throughput_requests_per_sec"] : List String) →
      dictGet? (countsBlock m ++ ttftBlock m ++ tpotBlock m) k = none := by
    intro k hk
    fin_cases hk <;>
      exact dictGet?_prefix_none m _
        (dictGet?_none_of_keys_subset (countsBlock_keys m) (by decide))
        (dictGet?_none_of_keys_subset (ttftBlock_keys m) (by decide))
        (dictGet?_none_of_keys_subset (tpotBlock_keys m) (by decide))
  have hmain : ∀ k : String,
      k ∈ (["throughput_tokens_per_sec",
            "throughput_requests_per_sec"] : List String) →
      dictGet? (aggregate m) k =
        dictGet?
          (if 0 < (m.iteration_data.map (fun d => d.elapsed)).sum then
            (countsBlock m ++ ttftBlock m ++ tpotBlock m) ++
              [("throughput_tokens_per_sec",
                 (m.raw_data.map (fun d => d.tokens_generated)).sum /
                   (m.iteration_data.map (fun d => d.elapsed)).sum),
               ("throughput_requests_per_sec",
                 (m.raw_data.length : ℚ) /
                   (m.iteration_data.map (fun d => d.elapsed)).sum)]
          else countsBlock m ++ ttftBlock m ++ tpotBlock m) k := by
    intro k hk
    unfold aggregate
    rw [if_neg h2,
      dictGet?_append_right_none
        (dictGet?_none_of_keys_subset (tokensBlock_keys m)
          (by fin_cases hk <;> decide)),
      dictGet?_append_right_none
        (dictGet?_none_of_keys_subset (latencyBlock_keys m)
          (by fin_cases hk <;> decide))]
    unfold throughputUpdate
    rw [if_pos h1,
      dictGet?_dictUpdate_not_mem _ _ _
        (dictGet?_concThroughput_ne m (by fin_cases hk <;> decide))]
  constructor
  · intro hT
    have hnot : ¬(0 < (m.iteration_data.map (fun d => d.elapsed)).sum) := by
      rw [hT]
      exact lt_irrefl 0
    constructor <;>
      · rw [hmain _ (by decide), if_neg hnot]
        exact hB _ (by decide)
  · intro hT
    constructor <;>
      · rw [hmain _ (by decide), if_pos hT,
          dictGet?_append_left _ (hB _ (by decide))]
        simp [dictGet?]

/-- A minimal successful-run store used to witness the aggregate claims. -/
def simpleStore : MetricsCollector :=
  { metric_names := ["throughput"],
    raw_data := [{ concurrency := 1, total_time := 1,
                   tokens_generated := 3, ttft := 0 }],
    iteration_data := [{ concurrency := 1, elapsed := 1, requests := 1 }],
    ttft_data := [], request_count := 1, error_count := 0 }

theorem C6_witness :
    dictGet? (aggregate simpleStore) "throughput_tokens_per_sec" =
      some ((simpleStore.raw_data.map (fun d => d.tokens_generated)).sum /
        (simpleStore.iteration_data.map (fun d => d.elapsed)).sum) :=
  ((C6 simpleStore (by decide) (by decide)).2
    (by norm_num [simpleStore])).1

/-- **C7**: the TPOT list contains exactly the values
`(total_time - ttft) / tokens_generated` of the successful outcomes with
positive tokens, positive total time and positive generation time, and when it
is non-empty (and TPOT is requested) the report carries its mean, median, p50,
p95 and p99. -/
theorem C7 (m : MetricsCollector) (htp : "tpot" ∈ m.metric_names)
    (hne : tpotList m ≠ []) :
    (∀ x : ℚ, x ∈ tpotList m ↔
      ∃ d ∈ m.raw_data, 0 < d.tokens_generated ∧ 0 < d.total_time ∧
        0 < d.total_time - d.ttft ∧
        x = (d.total_time - d.ttft) / d.tokens_generated) ∧
    dictGet? (aggregate m) "tpot_mean" = some (mean (tpotList m)) ∧
    dictGet? (aggregate m) "tpot_median" = some (median (tpotList m)) ∧
    dictGet? (aggregate m) "tpot_p50" = some (percentile (tpotList m) 50) ∧
    dictGet? (aggregate m) "tpot_p95" = some (percentile (tpotList m) 95) ∧
    dictGet? (aggregate m) "tpot_p99" = some (percentile (tpotList m) 99) := by
  have hraw : m.raw_data ≠ [] := by
    intro h
    apply hne
    simp [tpotList, h]
  have hchar : ∀ x : ℚ, x ∈ tpotList m ↔
      ∃ d ∈ m.raw_data, 0 < d.tokens_generated ∧ 0 < d.total_time ∧
        0 < d.total_time - d.ttft ∧
        x = (d.total_time - d.ttft) / d.tokens_generated := by
    intro x
    simp only [tpotList, List.mem_filterMap]
    constructor
    · rintro ⟨d, hd, hf⟩
      split_ifs at hf with hcond hgen
      exact ⟨d, hd, hcond.1, hcond.2, hgen, (Option.some_inj.mp hf).symm⟩
    · rintro ⟨d, hd, ha, hb, hc, hx⟩
      subst hx
      exact ⟨d, hd, by rw [if_pos ⟨ha, hb⟩, if_pos hc]⟩
  have hlook : ∀ k : String,
      k ∈ (["tpot_mean", "tpot_median", "tpot_p50", "tpot_p95",
            "tpot_p99"] : List String) →
      dictGet? (aggregate m) k = dictGet? (tpotBlock m) k := by
    intro k hk
    rw [dictGet?_aggregate_reduce m hraw k (by fin_cases hk <;> decide)
        (by fin_cases hk <;> decide) (by fin_cases hk <;> decide)
        (dictGet?_none_of_keys_subset (latencyBlock_keys m)
          (by fin_cases hk <;> decide))
        (dictGet?_none_of_keys_subset (tokensBlock_keys m)
          (by fin_cases hk <;> decide)),
      dictGet?_prefix_to_tpot m k
        (dictGet?_none_of_keys_subset (countsBlock_keys m)
          (by fin_cases hk <;> decide))
        (dictGet?_none_of_keys_subset (ttftBlock_keys m)
          (by fin_cases hk <;> decide))]
  have hblock : tpotBlock m =
      [("tpot_mean", mean (tpotList m)),
       ("tpot_median", median (tpotList m)),
       ("tpot_p50", percentile (tpotList m) 50),
       ("tpot_p95", percentile (tpotList m) 95),
       ("tpot_p99", percentile (tpotList m) 99)] := by
    unfold tpotBlock
    rw [if_pos htp, if_pos hne]
  refine ⟨hchar, ?_, ?_, ?_, ?_, ?_⟩ <;>
    · rw [hlook _ (by decide), hblock]
      simp [dictGet?]

theorem C5_witness :
    aggregate (init ["ttft"]) =
      [("total_requests", ((init ["ttft"]).request_count : ℚ)),
       ("successful_requests", 0),
       ("failed_requests", ((init ["ttft"]).error_count : ℚ)),
       ("success_rate", 0)] :=
  C5 (init ["ttft"]) rfl

/-- The store of the TPOT witness: one success with `total_time = 2`,
`ttft = 1`, `tokens_generated = 100`. -/
def tpotStore : MetricsCollector :=
  record (init ["tpot"])
    { error := false, total_time := some 2, tokens_generated := some 100,
      ttft := some 1 } 1

theorem C7_witness :
    dictGet? (aggregate tpotStore) "tpot_mean" =
      some (mean (tpotList tpotStore)) :=
  (C7 tpotStore (by decide)
    (by norm_num [tpotStore, tpotList, record, init]; simp)).2.1

/-- **C10** (amended): `record_iteration` with request count `0` stores an
interval record whose request count equals the concurrency argument, so the
stored count is nonzero whenever the concurrency is nonzero; a zero-request
interval is representable exactly by calling with concurrency `0`. -/
theorem C10_amended (m : MetricsCollector) (c : Int) (e : ℚ) :
    (record_iteration m c e 0).iteration_data =
      m.iteration_data ++
        [{ concurrency := c, elapsed := e, requests := c }] ∧
    (c ≠ 0 → ∃ r : IterationRecord,
      (record_iteration m c e 0).iteration_data.getLast? = some r ∧
        r.requests ≠ 0) := by
  have hrec : (record_iteration m c e 0).iteration_data =
      m.iteration_data ++
        [{ concurrency := c, elapsed := e, requests := c }] := by
    unfold record_iteration
    norm_num
  refine ⟨hrec, fun hc =>
    ⟨{ concurrency := c, elapsed := e, requests := c }, ?_, hc⟩⟩
  rw [hrec]
  exact List.getLast?_concat _

/-- **C10** (counterexample): calling `record_iteration` with concurrency `0`
and request count `0` stores an interval record with request count `0`, so a
zero-request interval IS representable through this interface. -/
theorem C10_counterexample :
    ((record_iteration (init []) 0 1 0).iteration_data.map
      (fun r => r.requests)) = [0] := rfl

theorem C10_witness :
    (record_iteration (init []) 5 1 0).iteration_data =
      [{ concurrency := 5, elapsed := 1, requests := 5 }] ∧
    ∃ r : IterationRecord,
      (record_iteration (init []) 5 1 0).iteration_data.getLast? = some r ∧
        r.requests ≠ 0 := by
  have h := C10_amended (init []) 5 1
  exact ⟨by simpa using h.1, h.2 (by decide)⟩

/-- **C9** (amended): the TTFT, TPOT, throughput and latency families appear
in the report only if their names are in the configured metric set, but the
token stats are NOT gated on the metric set: whenever some successful outcome
has positive `tokens_generated`, the report contains `tokens_mean` and
`tokens_total` regardless of the configured metrics. -/
theorem C9_amended (m : MetricsCollector) :
    (tokensList m ≠ [] →
      dictGet? (aggregate m) "tokens_mean" = some (mean (tokensList m)) ∧
      dictGet? (aggregate m) "tokens_total" = some ((tokensList m).sum)) ∧
    ("ttft" ∉ m.metric_names → dictGet? (aggregate m) "ttft_mean" = none) ∧
    ("tpot" ∉ m.metric_names → dictGet? (aggregate m) "tpot_mean" = none) ∧
    ("throughput" ∉ m.metric_names →
      dictGet? (aggregate m) "throughput_tokens_per_sec" = none) ∧
    ("p99_latency" ∉ m.metric_names → "latency" ∉ m.metric_names →
      dictGet? (aggregate m) "latency_mean" = none) := by
  by_cases hraw : m.raw_data = []
  · have hempty : ∀ k : String,
        k ∈ (["tokens_mean", "ttft_mean", "tpot_mean",
              "throughput_tokens_per_sec", "latency_mean"] : List String) →
        dictGet? (aggregate m) k = none := by
      intro k hk
      unfold aggregate
      rw [if_pos hraw]
      fin_cases hk <;> simp [empty_metrics, dictGet?]
    refine ⟨?_, ?_, ?_, ?_, ?_⟩
    · intro hne
      exact absurd (by simp [tokensList, hraw]) hne
    · exact fun _ => hempty _ (by decide)
    · exact fun _ => hempty _ (by decide)
    · exact fun _ => hempty _ (by decide)
    · exact fun _ _ => hempty _ (by decide)
  · have hagg : aggregate m =
        throughputUpdate m (countsBlock m ++ ttftBlock m ++ tpotBlock m) ++
          latencyBlock m ++ tokensBlock m := by
      unfold aggregate
      rw [if_neg hraw]
    refine ⟨?_, ?_, ?_, ?_, ?_⟩
    · intro hne
      have hTl : ∀ k : String,
          k ∈ (["tokens_mean", "tokens_total"] : List String) →
          dictGet?
            (throughputUpdate m
              (countsBlock m ++ ttftBlock m ++ tpotBlock m) ++
                latencyBlock m) k = none := by
        intro k hk
        have hTU : dictGet?
            (throughputUpdate m
              (countsBlock m ++ ttftBlock m ++ tpotBlock m)) k = none := by
          rw [dictGet?_throughputUpdate_other m _ k
            (by fin_cases hk <;> decide) (by fin_cases hk <;> decide)
            (by fin_cases hk <;> decide)]
          exact dictGet?_prefix_none m _
            (dictGet?_none_of_keys_subset (countsBlock_keys m)
              (by fin_cases hk <;> decide))
            (dictGet?_none_of_keys_subset (ttftBlock_keys m)
              (by fin_cases hk <;> decide))
            (dictGet?_none_of_keys_subset (tpotBlock_keys m)
              (by fin_cases hk <;> decide))
        rw [dictGet?_append_left _ hTU]
        exact dictGet?_none_of_keys_subset (latencyBlock_keys m)
          (by fin_cases hk <;> decide)
      have hblock : tokensBlock m =
          [("tokens_mean", mean (tokensList m)),
           ("tokens_total", (tokensList m).sum)] := by
        unfold tokensBlock
        rw [if_pos hne]
      constructor <;>
        · rw [hagg, dictGet?_append_left _ (hTl _ (by decide)), hblock]
          simp [dictGet?]
    · intro httft
      rw [hagg, dictGet?_append_right_none
          (dictGet?_none_of_keys_subset (tokensBlock_keys m) (by decide)),
        dictGet?_append_right_none
          (dictGet?_none_of_keys_subset (latencyBlock_keys m) (by decide)),
        dictGet?_throughputUpdate_other m _ _ (by decide) (by decide)
          (by decide)]
      refine dictGet?_prefix_none m _
        (dictGet?_none_of_keys_subset (countsBlock_keys m) (by decide)) ?_
        (dictGet?_none_of_keys_subset (tpotBlock_keys m) (by decide))
      rw [ttftBlock_not_requested m httft]
      rfl
    · intro htpot
      rw [hagg, dictGet?_append_right_none
          (dictGet?_none_of_keys_subset (tokensBlock_keys m) (by decide)),
        dictGet?_append_right_none
          (dictGet?_none_of_keys_subset (latencyBlock_keys m) (by decide)),
        dictGet?_throughputUpdate_other m _ _ (by decide) (by decide)
          (by decide)]
      refine dictGet?_prefix_none m _
        (dictGet?_none_of_keys_subset (countsBlock_keys m) (by decide))
        (dictGet?_none_of_keys_subset (ttftBlock_keys m) (by decide)) ?_
      rw [tpotBlock_not_requested m htpot]
      rfl
    · intro hth
      rw [hagg, dictGet?_append_right_none
          (dictGet?_none_of_keys_subset (tokensBlock_keys m) (by decide)),
        dictGet?_append_right_none
          (dictGet?_none_of_keys_subset (latencyBlock_keys m) (by decide)),
        throughputUpdate_not_requested m _ hth]
      exact dictGet?_prefix_none m _
        (dictGet?_none_of_keys_subset (countsBlock_keys m) (by decide))
        (dictGet?_none_of_keys_subset (ttftBlock_keys m) (by decide))
        (dictGet?_none_of_keys_subset (tpotBlock_keys m) (by decide))
    · intro hp99 hlat
      rw [hagg, dictGet?_append_right_none
          (dictGet?_none_of_keys_subset (tokensBlock_keys m) (by decide)),
        dictGet?_append_right_none
          (by rw [latencyBlock_not_requested m hp99 hlat]; rfl),
        dictGet?_throughputUpdate_other m _ _ (by decide) (by decide)
          (by decide)]
      exact dictGet?_prefix_none m _
        (dictGet?_none_of_keys_subset (countsBlock_keys m) (by decide))
        (dictGet?_none_of_keys_subset (ttftBlock_keys m) (by decide))
        (dictGet?_none_of_keys_subset (tpotBlock_keys m) (by decide))

/-- A store whose configured metric set is EMPTY and which holds one
successful outcome with five generated tokens. -/
def unconfiguredStore : MetricsCollector :=
  record (init [])
    { error := false, total_time := some 1, tokens_generated := some 5,
      ttft := some 0 } 1

/-- **C9** (counterexample): with an empty configured metric set — so token
stats are certainly not requested — the report of a store holding one success
with 5 tokens still contains `tokens_mean` (value 5), contradicting the claim
that every derived metric family is gated on the metric set. -/
theorem C9_counterexample :
    unconfiguredStore.metric_names = [] ∧
    dictGet? (aggregate unconfiguredStore) "tokens_mean" = some 5 := by
  constructor
  · rfl
  · norm_num [aggregate, unconfiguredStore, record, init, empty_metrics,
      countsBlock, ttftBlock, tpotBlock, throughputUpdate, latencyBlock,
      tokensBlock, ttftValues, tpotList, tokensList, latencies,
      concThroughput, dictUpdate, dictGet?, dictSet, mean, median,
      percentile, listMin, listMax, List.insertionSort, List.orderedInsert]
    simp

theorem C9_witness :
    dictGet? (aggregate unconfiguredStore) "tokens_mean" =
      some (mean (tokensList unconfiguredStore)) ∧
    dictGet? (aggregate unconfiguredStore) "tokens_total" =
      some ((tokensList unconfiguredStore).sum) :=
  (C9_amended unconfiguredStore).1
    (by norm_num [unconfiguredStore, tokensList, record, init])

set_option maxHeartbeats 2000000 in
/-- **C3**: the spec's end-to-end example: after two successes
(`total_time` 1.0/2.0, `ttft` 0.1/0.2, tokens 100/200), one failure, and one
iteration record (concurrency 10, elapsed 2.0, requests 3), the report has
`total_requests = 3`, `successful_requests = 2`, `success_rate = 2/3`,
`throughput_tokens_per_sec = 150` and `ttft_mean = 0.15`. -/
theorem C3 :
    dictGet? (aggregate exampleStore) "total_requests" = some 3 ∧
    dictGet? (aggregate exampleStore) "successful_requests" = some 2 ∧
    dictGet? (aggregate exampleStore) "success_rate" = some (2 / 3) ∧
    dictGet? (aggregate exampleStore) "throughput_tokens_per_sec" =
      some 150 ∧
    dictGet? (aggregate exampleStore) "ttft_mean" = some (3 / 20) := by
  norm_num [aggregate, exampleStore, record, record_iteration, init,
    empty_metrics, countsBlock, ttftBlock, tpotBlock, throughputUpdate,
    latencyBlock, tokensBlock, ttftValues, tpotList, tokensList, latencies,
    concThroughput, dictUpdate, dictSet, dictGet?, mean, median, percentile,
    listMin, listMax, List.insertionSort, List.orderedInsert]
  simp

end Benchx
